import Mathlib

/-!
Verification of the tantivy-vibrato adapter (`src/tokenizer.rs`).

The repository adapts the vibrato morphological segmentation engine to
tantivy's pull-based `Tokenizer`/`TokenStream` interface.  The adapter code
itself is embedded faithfully below; the external collaborators (the
filesystem, the vibrato `Dictionary`/`Worker`) are modelled as abstract
parameters, with the engine facts the spec relies on stated as explicit
hypotheses.
-/

namespace TantivyVibrato

/-- A half-open index range, mirroring Rust's `Range<usize>` as returned by
vibrato's `range_byte()` / `range_char()`.  `start`/`stop` model
`range.start` / `range.end` (`end` is a Lean keyword). -/
structure VRange where
  start : Nat
  stop : Nat
deriving DecidableEq, Repr

/-- A lexical unit as produced by vibrato's `Worker::token_iter()`:
its surface string, its byte range into the input, and its character range
into the input (`vibrato::token::Token`). -/
structure VToken where
  surface : String
  rangeByte : VRange
  rangeChar : VRange
deriving DecidableEq, Repr

/-- tantivy's `Token` record, with the fields the adapter fills
(`tantivy::tokenizer::Token`). -/
structure TToken where
  offset_from : Nat
  offset_to : Nat
  position : Nat
  position_length : Nat
  text : String
deriving DecidableEq, Repr

/-- The per-unit conversion performed inside `token_stream`
(src/tokenizer.rs lines 50-57): byte offsets and character positions are
forwarded verbatim; `position_length` is `range_char().end - range_char().start`
(usize subtraction, which in Rust requires `start <= end`; Lean's truncating
`Nat` subtraction agrees with it on that domain). -/
def toTToken (t : VToken) : TToken :=
  { offset_from := t.rangeByte.start
    offset_to := t.rangeByte.stop
    position := t.rangeChar.start
    position_length := t.rangeChar.stop - t.rangeChar.start
    text := t.surface }

/-- `VibratoTokenStream` (src/tokenizer.rs lines 59-62): the eagerly
materialized token sequence plus the cursor `index: Option<usize>`. -/
structure VibratoTokenStream where
  tokens : List TToken
  index : Option Nat
deriving DecidableEq, Repr

/-- `VibratoTokenStream::advance` (src/tokenizer.rs lines 74-82):
`next_index = index.map(|i| i + 1).unwrap_or(0)`; if it is in bounds the
cursor moves there and `true` is returned, otherwise the state is left
unchanged and `false` is returned.  Returned as (new state, boolean). -/
def advance (s : VibratoTokenStream) : VibratoTokenStream × Bool :=
  let next_index := (s.index.map (fun i => i + 1)).getD 0
  if next_index < s.tokens.length then
    ({ s with index := some next_index }, true)
  else
    (s, false)

/-- `VibratoTokenStream::token` (src/tokenizer.rs lines 84-86):
`&self.tokens[self.index.unwrap()]`.  A panic — unwrapping a `None` cursor or
indexing out of bounds — is modelled as `none`; a returned reference as
`some`. -/
def token? (s : VibratoTokenStream) : Option TToken :=
  match s.index with
  | none => none
  | some i => s.tokens[i]?

/-- `VibratoTokenStream::token_mut` (src/tokenizer.rs lines 88-90):
`&mut self.tokens[self.index.unwrap()]`.  The caller's in-place mutation
through the returned `&mut` reference is modelled by applying `f` to the
token at the cursor; a panic is modelled as `none`. -/
def tokenMut? (s : VibratoTokenStream) (f : TToken → TToken) :
    Option VibratoTokenStream :=
  match s.index with
  | none => none
  | some i =>
    match s.tokens[i]? with
    | none => none
    | some t => some { s with tokens := s.tokens.set i (f t) }

/-- `VibratoTokenizer::token_stream` (src/tokenizer.rs lines 41-65).

The vibrato `Worker` is external to this repository, so the sequence
`new_worker(); reset_sentence(text); tokenize(); token_iter()` is abstracted
into one parameter `segment : String → Except String (List VToken)`:
`Except.ok ts` means `reset_sentence` succeeded and `token_iter` (after
`tokenize`) yields the units `ts`; `Except.error e` means `reset_sentence`
failed with message `e`.   Modelled from the spec: on a failed reset the
worker's sentence buffer is left empty, so the subsequent `tokenize()` run
produces zero units — the call yields zero tokens.

What is taken from the source: the failure is swallowed by
`unwrap_or_else(|e| error!("Failed to reset sentence: {}", e))` — the first
component of the result collects the emitted diagnostic log lines — and the
stream is built from the mapped tokens with `index: None`; the function's
codomain carries no error alternative. -/
def tokenStream (segment : String → Except String (List VToken))
    (text : String) : List String × VibratoTokenStream :=
  match segment text with
  | Except.ok vtoks =>
    ([], { tokens := vtoks.map toTToken, index := none })
  | Except.error e =>
    (["Failed to reset sentence: " ++ e], { tokens := [], index := none })

/-- A handle to an opened dictionary file (`std::fs::File`), opaque to the
adapter. -/
structure FileHandle where
  id : Nat
deriving DecidableEq

/-- vibrato's `Dictionary`, opaque to the adapter. -/
structure Dictionary where
  id : Nat
deriving DecidableEq

/-- vibrato's `Tokenizer`, built from a `Dictionary` by `Tokenizer::new`. -/
structure Tokenizer where
  dict : Dictionary
deriving DecidableEq

/-- `TantivyVibratoError` (src/tokenizer.rs lines 12-20): `IOError` wraps a
`std::io::Error`, `VibratoError` wraps a `vibrato::errors::VibratoError`
(the dictionary-format error). -/
inductive TantivyVibratoError where
  | IOError (e : String)
  | VibratoError (e : String)
deriving DecidableEq

/-- `VibratoTokenizer` (src/tokenizer.rs lines 22-25): holds the shared
`Arc<Tokenizer>`. -/
structure VibratoTokenizer where
  tokenizer : Tokenizer
deriving DecidableEq

/-- `VibratoTokenizer::new` (src/tokenizer.rs lines 31-37).  The filesystem
and the dictionary parser are external, so they enter as parameters:
`openFile` is the outcome of `fs::File::open(&dict_path)` and `readDict` the
outcome of `Dictionary::read(BufReader::new(file))`.  Each `?` converts the
error through the corresponding `TantivyVibratoError` variant (`#[from]`). -/
def VibratoTokenizer.new (openFile : Except String FileHandle)
    (readDict : FileHandle → Except String Dictionary) :
    Except TantivyVibratoError VibratoTokenizer :=
  match openFile with
  | Except.error e => Except.error (TantivyVibratoError.IOError e)
  | Except.ok file =>
    match readDict file with
    | Except.error e => Except.error (TantivyVibratoError.VibratoError e)
    | Except.ok dict => Except.ok { tokenizer := { dict := dict } }

/-! ## The spec's cursor state machine (§4.2), for the refinement claim -/

/-- The abstract cursor states named by the spec's state machine (§4.2):
`{NotStarted, Positioned(i), Exhausted}`.  This definition follows the
spec's words, to be compared with the source-level `advance`. -/
inductive SpecCursorState where
  | notStarted
  | positioned (i : Nat)
  | exhausted
deriving DecidableEq, Repr

/-- The spec's transition function (§4.2), written from the spec's words,
for a token sequence of length `n`: from `NotStarted`, to `Positioned 0`
returning `true` if the sequence is non-empty, else to `Exhausted`
returning `false`; from `Positioned i`, to `Positioned (i+1)` returning
`true` if `i+1` is a valid index, else to `Exhausted` returning `false`;
from `Exhausted`, stay, returning `false`. -/
def specAdvance (n : Nat) : SpecCursorState → SpecCursorState × Bool
  | SpecCursorState.notStarted =>
    if 0 < n then (SpecCursorState.positioned 0, true)
    else (SpecCursorState.exhausted, false)
  | SpecCursorState.positioned i =>
    if i + 1 < n then (SpecCursorState.positioned (i + 1), true)
    else (SpecCursorState.exhausted, false)
  | SpecCursorState.exhausted => (SpecCursorState.exhausted, false)

/-- The simulation relation between a concrete stream state and an abstract
spec cursor state.  The concrete representation stores no explicit
`Exhausted` tag: a stream is exhausted exactly when its next probe index
(`0` from a `none` cursor, `i+1` from `some i`) is out of bounds. -/
def simRel (s : VibratoTokenStream) : SpecCursorState → Prop
  | SpecCursorState.notStarted => s.index = none
  | SpecCursorState.positioned i => s.index = some i ∧ i < s.tokens.length
  | SpecCursorState.exhausted =>
    (s.index = none ∧ s.tokens.length = 0) ∨
      ∃ i, s.index = some i ∧ s.tokens.length ≤ i + 1

/-- `k` successive `advance` calls, keeping only the state. -/
def advanceIter : Nat → VibratoTokenStream → VibratoTokenStream
  | 0, s => s
  | k + 1, s => advanceIter k (advance s).1

/-! ## Well-formedness predicates for the produced token sequence -/

/-- The cursor invariant: whenever the cursor is positioned, it is a valid
index into the token sequence. -/
def cursorInv (s : VibratoTokenStream) : Prop :=
  ∀ i, s.index = some i → i < s.tokens.length

/-- Byte-offset well-formedness of one produced token against an input of
`n` bytes: `offset_from <= offset_to <= n`. -/
def tokenByteBounded (n : Nat) (t : TToken) : Prop :=
  t.offset_from ≤ t.offset_to ∧ t.offset_to ≤ n

/-- Byte-offset well-formedness of a produced token sequence: every token is
bounded by the input's byte length, and both byte offsets are monotonically
non-decreasing across adjacent tokens. -/
def tokensByteWF (n : Nat) (ts : List TToken) : Prop :=
  (∀ t ∈ ts, tokenByteBounded n t) ∧
    ts.Chain' (fun a b => a.offset_from ≤ b.offset_from ∧ a.offset_to ≤ b.offset_to)

/-- The corresponding property of the engine's units (vibrato byte ranges).
Modelled from the spec: the segmentation engine produces units whose byte
ranges are well-formed sub-ranges of the input, in non-decreasing order
(spec §3 invariants; the engine itself is outside this repository). -/
def vtokensByteWF (n : Nat) (ts : List VToken) : Prop :=
  (∀ t ∈ ts, t.rangeByte.start ≤ t.rangeByte.stop ∧ t.rangeByte.stop ≤ n) ∧
    ts.Chain' (fun a b =>
      a.rangeByte.start ≤ b.rangeByte.start ∧ a.rangeByte.stop ≤ b.rangeByte.stop)

/-- Contiguity of the engine's units in characters, with well-formed
character ranges: each unit's char range is non-empty-ordered
(`start ≤ stop`) and each next unit starts where the previous one stopped.
Modelled from the spec: "contiguous segmentation (no skipped characters)". -/
def vtokensCharContiguous (ts : List VToken) : Prop :=
  (∀ t ∈ ts, t.rangeChar.start ≤ t.rangeChar.stop) ∧
    ts.Chain' (fun a b => b.rangeChar.start = a.rangeChar.stop)

/-! ## Shared helper lemmas and sample values -/

/-- Transport a `Chain'` along an implication that may also use a per-element
property of both members of each adjacent pair. -/
theorem chain'_imp_of_forall_mem {α : Type} {P : α → Prop} {R S : α → α → Prop}
    (hRS : ∀ a b, P a → P b → R a b → S a b) :
    ∀ l : List α, (∀ a ∈ l, P a) → l.Chain' R → l.Chain' S := by
  intro l
  induction l with
  | nil => intro _ _; exact List.chain'_nil
  | cons a l2 ih =>
    intro hP hR
    cases l2 with
    | nil => simp
    | cons b l3 =>
      rw [List.chain'_cons] at hR ⊢
      refine ⟨hRS a b (hP a (by simp)) (hP b (by simp)) hR.1, ih ?_ hR.2⟩
      intro x hx
      exact hP x (by simp [hx])

/-- If `advance` reports `false`, it left the state untouched. -/
theorem advance_false_eq (s : VibratoTokenStream) (h : (advance s).2 = false) :
    advance s = (s, false) := by
  by_cases hc : ((s.index.map (fun i => i + 1)).getD 0) < s.tokens.length
  · simp [advance, hc] at h
  · simp [advance, hc]

/-- A sample materialized token, used to instantiate theorems. -/
def sampleToken : TToken :=
  { offset_from := 0, offset_to := 3, position := 0, position_length := 1, text := "す" }

/-- A sample engine unit, used to instantiate theorems. -/
def sampleVToken : VToken :=
  { surface := "", rangeByte := { start := 0, stop := 0 },
    rangeChar := { start := 0, stop := 0 } }

/-! ## Claims -/

/-- C3: the cursor of a token stream follows exactly the spec's state
machine under `advance()`: from `NotStarted`, `advance()` moves to
`Positioned 0` and returns `true` if the token sequence is non-empty, else
to `Exhausted` returning `false`; from `Positioned i`, `advance()` moves to
`Positioned (i+1)` and returns `true` if `i+1` is a valid index, else to
`Exhausted` returning `false`.  Stated as a forward simulation: whenever a
concrete stream state is related to a spec state, one `advance` step returns
the same boolean as the spec machine's step and re-establishes the
relation.  The initial stream (cursor `none`) is related to `NotStarted` by
definition of `simRel`. -/
theorem c3_advance_refines_spec (s : VibratoTokenStream) (t : SpecCursorState)
    (h : simRel s t) :
    (advance s).2 = (specAdvance s.tokens.length t).2 ∧
      simRel (advance s).1 (specAdvance s.tokens.length t).1 := by
  cases t with
  | notStarted =>
    simp only [simRel] at h
    by_cases h0 : 0 < s.tokens.length
    · simp [advance, specAdvance, simRel, h, h0]
    · have hz : s.tokens.length = 0 := by omega
      simp [advance, specAdvance, simRel, h, h0, hz]
  | positioned i =>
    obtain ⟨hidx, hlt⟩ := h
    by_cases h1 : i + 1 < s.tokens.length
    · simp [advance, specAdvance, simRel, hidx, h1]
    · simp [advance, specAdvance, simRel, hidx, h1]
      omega
  | exhausted =>
    rcases h with ⟨hidx, hlen⟩ | ⟨i, hidx, hge⟩
    · simp [advance, specAdvance, simRel, hidx, hlen]
    · have hnot : ¬ i + 1 < s.tokens.length := by omega
      simp [advance, specAdvance, simRel, hidx, hnot]
      omega

/-- Witness for C3 at a concrete stream and spec state. -/
theorem c3_advance_refines_spec_witness :
    simRel { tokens := [sampleToken], index := none } SpecCursorState.notStarted ∧
      ((advance { tokens := [sampleToken], index := none }).2 =
          (specAdvance 1 SpecCursorState.notStarted).2 ∧
        simRel (advance { tokens := [sampleToken], index := none }).1
          (specAdvance 1 SpecCursorState.notStarted).1) :=
  ⟨rfl, c3_advance_refines_spec { tokens := [sampleToken], index := none }
    SpecCursorState.notStarted rfl⟩

/-- C4: once `advance()` has returned `false`, every subsequent call to
`advance()` also returns `false` and causes no observable change to the
stream's state: after any number `k` of further calls the state equals the
state at the moment of the first `false`, and `advance` still returns
`false` there. -/
theorem c4_exhausted_idempotent (s : VibratoTokenStream) (k : Nat)
    (h : (advance s).2 = false) :
    advanceIter k s = s ∧ (advance (advanceIter k s)).2 = false := by
  have hstep := advance_false_eq s h
  have hiter : ∀ m : Nat, advanceIter m s = s := by
    intro m
    induction m with
    | zero => rfl
    | succ m2 ih =>
      show advanceIter m2 (advance s).1 = s
      rw [hstep]
      exact ih
  exact ⟨hiter k, by rw [hiter k, h]⟩

/-- Witness for C4: the empty stream's first `advance` returns `false`, and
after two further calls the state is unchanged and `advance` still returns
`false`. -/
theorem c4_exhausted_idempotent_witness :
    (advance { tokens := [], index := none }).2 = false ∧
      (advanceIter 2 { tokens := [], index := none } =
          ({ tokens := [], index := none } : VibratoTokenStream) ∧
        (advance (advanceIter 2 { tokens := [], index := none })).2 = false) :=
  ⟨rfl, c4_exhausted_idempotent { tokens := [], index := none } 2 rfl⟩

/-- C5: for the empty input text, `token_stream` returns a stream with
exactly zero tokens and the first `advance()` on it returns `false`.  The
hypothesis — segmenting the empty sentence succeeds and yields zero units —
is the engine behavior the repository's own `empty` test records; the
engine is external, so it enters as an assumption on `segment`. -/
theorem c5_empty_input (segment : String → Except String (List VToken))
    (h : segment "" = Except.ok []) :
    (tokenStream segment "").2.tokens = [] ∧
      (advance (tokenStream segment "").2).2 = false := by
  simp [tokenStream, h, advance]

/-- Witness for C5 with a concrete segmenter. -/
theorem c5_empty_input_witness :
    ((fun _ : String => (Except.ok [] : Except String (List VToken))) "" =
        Except.ok []) ∧
      ((tokenStream (fun _ => Except.ok []) "").2.tokens = [] ∧
        (advance (tokenStream (fun _ => Except.ok []) "").2).2 = false) :=
  ⟨rfl, c5_empty_input (fun _ => Except.ok []) rfl⟩

/-- C10: on any freshly returned token stream — whatever the segmenter did —
calling `token()` or `token_mut()` before any `advance()` panics unwrapping
the `None` cursor (modelled as `none`) rather than returning a token. -/
theorem c10_access_before_advance_panics
    (segment : String → Except String (List VToken)) (text : String)
    (f : TToken → TToken) :
    token? (tokenStream segment text).2 = none ∧
      tokenMut? (tokenStream segment text).2 f = none := by
  cases hseg : segment text <;> simp [tokenStream, hseg, token?, tokenMut?]

/-- C2: whenever the worker's reset step fails, `token_stream` emits exactly
one diagnostic log entry and returns a stream with exactly zero tokens; the
failure is never surfaced as an error value — `tokenStream`'s codomain is a
(log, stream) pair with no error alternative, so the operation is infallible
for the caller by type. -/
theorem c2_reset_failure_zero_tokens
    (segment : String → Except String (List VToken)) (text e : String)
    (h : segment text = Except.error e) :
    (tokenStream segment text).1 = ["Failed to reset sentence: " ++ e] ∧
      (tokenStream segment text).2.tokens = [] := by
  simp [tokenStream, h]

/-- Witness for C2 with a concrete failing segmenter. -/
theorem c2_reset_failure_zero_tokens_witness :
    ((fun _ : String => (Except.error "bad input" : Except String (List VToken)))
        "x" = Except.error "bad input") ∧
      ((tokenStream (fun _ => Except.error "bad input") "x").1 =
          ["Failed to reset sentence: " ++ "bad input"] ∧
        (tokenStream (fun _ => Except.error "bad input") "x").2.tokens = []) :=
  ⟨rfl, c2_reset_failure_zero_tokens (fun _ => Except.error "bad input") "x"
    "bad input" rfl⟩

/-- C6: `VibratoTokenizer::new` fails with `IOError` exactly when opening the
file fails, fails with `VibratoError` (the dictionary-format error) exactly
when the opened bytes do not parse as a dictionary, and is all-or-nothing:
a success carries a tokenizer fully built from the parsed dictionary, and
(by the `Except` result type) an error carries no tokenizer value at all. -/
theorem c6_construction_all_or_nothing (openFile : Except String FileHandle)
    (readDict : FileHandle → Except String Dictionary) :
    (∀ e, openFile = Except.error e →
        VibratoTokenizer.new openFile readDict =
          Except.error (TantivyVibratoError.IOError e)) ∧
      (∀ file e, openFile = Except.ok file → readDict file = Except.error e →
        VibratoTokenizer.new openFile readDict =
          Except.error (TantivyVibratoError.VibratoError e)) ∧
      (∀ file dict, openFile = Except.ok file → readDict file = Except.ok dict →
        VibratoTokenizer.new openFile readDict =
          Except.ok { tokenizer := { dict := dict } }) ∧
      (∀ tk, VibratoTokenizer.new openFile readDict = Except.ok tk →
        ∃ file dict, openFile = Except.ok file ∧ readDict file = Except.ok dict ∧
          tk = { tokenizer := { dict := dict } }) := by
  refine ⟨?_, ?_, ?_, ?_⟩
  · intro e he
    simp [VibratoTokenizer.new, he]
  · intro file e hfile hdict
    simp [VibratoTokenizer.new, hfile, hdict]
  · intro file dict hfile hdict
    simp [VibratoTokenizer.new, hfile, hdict]
  · intro tk htk
    cases hfile : openFile with
    | error e => simp [VibratoTokenizer.new, hfile] at htk
    | ok file =>
      cases hdict : readDict file with
      | error e => simp [VibratoTokenizer.new, hfile, hdict] at htk
      | ok dict =>
        simp [VibratoTokenizer.new, hfile, hdict] at htk
        exact ⟨file, dict, rfl, hdict, htk.symm⟩

/-- Witness for C6: a failed open yields exactly the `IOError`. -/
theorem c6_construction_all_or_nothing_witness :
    (Except.error "no such file" : Except String FileHandle) =
        Except.error "no such file" ∧
      VibratoTokenizer.new (Except.error "no such file")
          (fun _ => Except.ok { id := 0 }) =
        Except.error (TantivyVibratoError.IOError "no such file") :=
  ⟨rfl, (c6_construction_all_or_nothing (Except.error "no such file")
    (fun _ => Except.ok { id := 0 })).1 "no such file" rfl⟩

/-- C9: the cursor invariant — the cursor is `none` or a valid index — holds
on every freshly constructed stream, is preserved by `advance` and by an
in-place mutation through `token_mut`, and under it a positioned cursor
makes `token()`/`token_mut()` succeed (no out-of-bounds access). -/
theorem c9_cursor_invariant (segment : String → Except String (List VToken))
    (text : String) (s : VibratoTokenStream) (f : TToken → TToken)
    (s2 : VibratoTokenStream) (i : Nat) (h : cursorInv s) :
    cursorInv (tokenStream segment text).2 ∧
      cursorInv (advance s).1 ∧
      (tokenMut? s f = some s2 → cursorInv s2) ∧
      (s.index = some i →
        (token? s).isSome = true ∧ (tokenMut? s f).isSome = true) := by
  refine ⟨?_, ?_, ?_, ?_⟩
  · cases hseg : segment text <;> simp [tokenStream, hseg, cursorInv]
  · by_cases hc : ((s.index.map (fun j => j + 1)).getD 0) < s.tokens.length
    · simp only [advance, hc, if_true]
      intro j hj
      simp only [Option.some.injEq] at hj
      subst hj
      exact hc
    · rw [advance_false_eq s (by simp [advance, hc])]
      exact h
  · intro hmut
    cases hidx : s.index with
    | none => simp [tokenMut?, hidx] at hmut
    | some j =>
      cases hget : s.tokens[j]? with
      | none => simp [tokenMut?, hidx, hget] at hmut
      | some t =>
        simp only [tokenMut?, hidx, hget, Option.some.injEq] at hmut
        subst hmut
        intro k hk
        simp only [hidx, Option.some.injEq] at hk
        subst hk
        show j < (s.tokens.set j (f t)).length
        rw [List.length_set]
        exact h j hidx
  · intro hi
    have hlt := h i hi
    constructor
    · simp [token?, hi, List.getElem?_eq_getElem hlt]
    · simp [tokenMut?, hi, List.getElem?_eq_getElem hlt]

/-- Witness for C9 at a singleton stream with a positioned cursor. -/
theorem c9_cursor_invariant_witness :
    cursorInv { tokens := [sampleToken], index := some 0 } ∧
      (cursorInv (tokenStream (fun _ => Except.ok []) "").2 ∧
        cursorInv (advance { tokens := [sampleToken], index := some 0 }).1 ∧
        (tokenMut? { tokens := [sampleToken], index := some 0 } id =
            some { tokens := [sampleToken], index := some 0 } →
          cursorInv { tokens := [sampleToken], index := some 0 }) ∧
        (({ tokens := [sampleToken], index := some 0 } :
            VibratoTokenStream).index = some 0 →
          (token? { tokens := [sampleToken], index := some 0 }).isSome = true ∧
            (tokenMut? { tokens := [sampleToken], index := some 0 } id).isSome =
              true)) :=
  ⟨fun i hi => by simp only [Option.some.injEq] at hi; subst hi; decide,
    c9_cursor_invariant (fun _ => Except.ok []) ""
      { tokens := [sampleToken], index := some 0 } id
      { tokens := [sampleToken], index := some 0 } 0
      (fun i hi => by simp only [Option.some.injEq] at hi; subst hi; decide)⟩

/-- C7: every token sequence produced by one `token_stream` call satisfies
`offset_from <= offset_to <= byte length of the input`, with byte offsets
monotonically non-decreasing across the sequence.  The adapter copies the
engine's byte ranges verbatim, so the hypothesis is the engine-side
well-formedness of those ranges (spec §3; the engine is external); a failed
reset produces the empty sequence, which satisfies the invariant outright. -/
theorem c7_byte_offsets_wf (segment : String → Except String (List VToken))
    (text : String)
    (hwf : ∀ vtoks, segment text = Except.ok vtoks →
      vtokensByteWF text.utf8ByteSize vtoks) :
    tokensByteWF text.utf8ByteSize (tokenStream segment text).2.tokens := by
  cases hseg : segment text with
  | error e => simp [tokenStream, hseg, tokensByteWF]
  | ok vtoks =>
    obtain ⟨hb, hchain⟩ := hwf vtoks hseg
    simp only [tokenStream, hseg]
    constructor
    · intro t ht
      simp only [List.mem_map] at ht
      obtain ⟨v, hv, rfl⟩ := ht
      exact ⟨(hb v hv).1, (hb v hv).2⟩
    · rw [List.chain'_map]
      exact hchain

/-- A first sample engine unit over the input "あい" (6 bytes, 2 chars). -/
def vA : VToken :=
  { surface := "あ", rangeByte := { start := 0, stop := 3 },
    rangeChar := { start := 0, stop := 1 } }

/-- A second sample engine unit over the input "あい" (6 bytes, 2 chars). -/
def vB : VToken :=
  { surface := "い", rangeByte := { start := 3, stop := 6 },
    rangeChar := { start := 1, stop := 2 } }

/-- Witness for C7 on the two-unit segmentation of "あい". -/
theorem c7_byte_offsets_wf_witness :
    tokensByteWF ("あい".utf8ByteSize)
      (tokenStream (fun _ => Except.ok [vA, vB]) "あい").2.tokens :=
  c7_byte_offsets_wf (fun _ => Except.ok [vA, vB]) "あい"
    (by
      intro vtoks hv
      injection hv with hv2
      subst hv2
      constructor
      · intro t ht
        simp only [List.mem_cons, List.not_mem_nil, or_false] at ht
        rcases ht with rfl | rfl <;> decide
      · rw [List.chain'_cons]
        exact ⟨by decide, List.chain'_singleton _⟩)

/-- C8: on contiguously segmented input (each unit starts at the character
where the previous one stopped, with well-formed character ranges — the
engine-side facts, stated as a hypothesis since the engine is external),
every adjacent pair of produced tokens satisfies
`position[i+1] = position[i] + position_length[i]`. -/
theorem c8_char_positions_contiguous
    (segment : String → Except String (List VToken)) (text : String)
    (hc : ∀ vtoks, segment text = Except.ok vtoks → vtokensCharContiguous vtoks) :
    ((tokenStream segment text).2.tokens).Chain'
      (fun a b => b.position = a.position + a.position_length) := by
  cases hseg : segment text with
  | error e => simp [tokenStream, hseg]
  | ok vtoks =>
    obtain ⟨hwf, hchain⟩ := hc vtoks hseg
    simp only [tokenStream, hseg]
    rw [List.chain'_map]
    refine chain'_imp_of_forall_mem ?_ vtoks hwf hchain
    intro a b hPa hPb hR
    show (toTToken b).position = (toTToken a).position + (toTToken a).position_length
    simp only [toTToken]
    omega

/-- Witness for C8 on the two-unit contiguous segmentation of "あい". -/
theorem c8_char_positions_contiguous_witness :
    ((tokenStream (fun _ => Except.ok [vA, vB]) "あい").2.tokens).Chain'
      (fun a b => b.position = a.position + a.position_length) :=
  c8_char_positions_contiguous (fun _ => Except.ok [vA, vB]) "あい"
    (by
      intro vtoks hv
      injection hv with hv2
      subst hv2
      constructor
      · intro t ht
        simp only [List.mem_cons, List.not_mem_nil, or_false] at ht
        rcases ht with rfl | rfl <;> decide
      · rw [List.chain'_cons]
        exact ⟨by decide, List.chain'_singleton _⟩)

/-- C1, counterexample to the claim as stated: on the one-token stream built
from the unit `vA`, the first `advance()` returns `true` (the cursor is
positioned), the second returns `false` (exhaustion), and yet `token()`
after that `false` silently returns the token the cursor last pointed at —
neither an abort (`none`) nor an explicit empty result. -/
theorem c1_stale_token_counterexample :
    (advance (tokenStream (fun _ => Except.ok [vA]) "あ").2).2 = true ∧
      (advance (advance (tokenStream (fun _ => Except.ok [vA]) "あ").2).1).2 =
        false ∧
      token? (advance (advance (tokenStream (fun _ => Except.ok [vA]) "あ").2).1).1 =
        some (toTToken vA) := by
  refine ⟨rfl, rfl, rfl⟩

/-- C1, amended: `token()` before any `advance()` aborts on the `None`
cursor (returns no token value, modelled `none`); and an `advance()` that
returns `false` leaves the stream state unchanged, so `token()` after
exhaustion behaves exactly as before that call — it aborts when the cursor
was never positioned, but silently returns the token at the last cursor
position when it was. -/
theorem c1_amended_stale_after_exhaustion
    (segment : String → Except String (List VToken)) (text : String)
    (s : VibratoTokenStream) (hf : (advance s).2 = false) :
    token? (tokenStream segment text).2 = none ∧
      token? (advance s).1 = token? s := by
  constructor
  · cases hseg : segment text <;> simp [tokenStream, hseg, token?]
  · rw [advance_false_eq s hf]

/-- Witness for the amended C1 on an exhausted one-token stream. -/
theorem c1_amended_stale_after_exhaustion_witness :
    (advance { tokens := [toTToken vA], index := some 0 }).2 = false ∧
      (token? (tokenStream (fun _ => Except.ok [vA]) "あ").2 = none ∧
        token? (advance { tokens := [toTToken vA], index := some 0 }).1 =
          token? { tokens := [toTToken vA], index := some 0 }) :=
  ⟨rfl, c1_amended_stale_after_exhaustion (fun _ => Except.ok [vA]) "あ"
    { tokens := [toTToken vA], index := some 0 } rfl⟩

end TantivyVibrato
